import Mathlib

/-!
Verification of the event-synchronization core of `pulse-source-listener`
(`src/src/main.rs`): the source cache, the default-source resolver, the
subscription-callback translator, one iteration of the consumer loop of
`subscribe_source_mute`, and the reporter `report_mute_change`.

The collaborator (PulseAudio introspection) is modelled by an `Env` record
giving the responses the three blocking request/response helpers would
deliver during one loop iteration.
-/

namespace PulseSourceListener

/-- Cached attributes of one source: `struct SourceDatum { name, mute }`. -/
structure SourceDatum where
  name : String
  mute : Bool
deriving DecidableEq, Repr

/-- The source cache `type Sources = HashMap<u32, SourceDatum>`, modelled as an
association list keyed by the source index. -/
abbrev Sources := List (Nat × SourceDatum)

/-- `HashMap::get(&k)`: the entry at key `k`, if present. -/
def Sources.get (s : Sources) (k : Nat) : Option SourceDatum :=
  (s.find? (fun p => p.1 == k)).map Prod.snd

/-- `HashMap::insert(k, v)`: replace-or-add the entry at key `k`. -/
def Sources.insert (s : Sources) (k : Nat) (v : SourceDatum) : Sources :=
  (k, v) :: s.filter (fun p => p.1 != k)

/-- `HashMap::remove(&k)`: drop the entry at key `k`, if any. -/
def Sources.remove (s : Sources) (k : Nat) : Sources :=
  s.filter (fun p => p.1 != k)

/-- `struct ListenerState { sources, default_source_id }`. -/
structure ListenerState where
  sources : Sources
  default_source_id : Option Nat
deriving DecidableEq, Repr

/-- `ListenerState::default_source`: look the current default id up in the cache. -/
def ListenerState.default_source (s : ListenerState) : Option SourceDatum :=
  match s.default_source_id with
  | some src_id => Sources.get s.sources src_id
  | none => none

/-- `get_default_source_index` (src/src/main.rs lines 345-363): the server's
default-source name (as `find_default_source_name` would deliver it, here the
`defaultName` argument) is scanned against the cache by exact name equality;
the first matching index is returned. -/
def get_default_source_index (defaultName : Option String) (sources : Sources) :
    Option Nat :=
  match defaultName with
  | some default_src_name =>
      (sources.find? (fun p => p.2.name == default_src_name)).map Prod.fst
  | none => none

/-- `enum PulseChange`. -/
inductive PulseChange
  | SourceChange (idx : Nat)
  | SourceNew (idx : Nat)
  | SourceDrop (idx : Nat)
  | Server
deriving DecidableEq, Repr

/-- `enum CallbackComms`. -/
inductive CallbackComms
  | Shutdown
  | CallbackDone (b : Bool)
  | ChangeType (c : PulseChange)
deriving DecidableEq, Repr

/-- The subscription facilities of the collaborator library. -/
inductive Facility
  | Sink
  | Source
  | SinkInput
  | SourceOutput
  | Module
  | Client
  | SampleCache
  | Server
  | Card
deriving DecidableEq, Repr

/-- The subscription operations of the collaborator library. -/
inductive Operation
  | New
  | Changed
  | Removed
deriving DecidableEq, Repr

/-- The subscribe callback registered in `subscribe_source_mute`
(src/src/main.rs lines 409-443).  It first `unwrap`s both `Option`s, then
matches the facility/operation pair and sends messages on the channel.
`none` models a panic of one of the `unwrap`s; `some msgs` models the list of
messages sent on the channel (empty for unrelated facilities). -/
def subscribe_cb (facility : Option Facility) (operation : Option Operation)
    (idx : Nat) : Option (List CallbackComms) :=
  match facility with
  | none => none
  | some f =>
    match operation with
    | none => none
    | some op =>
      some <|
        match f with
        | Facility.Source =>
          match op with
          | Operation.Changed =>
              [CallbackComms.ChangeType (PulseChange.SourceChange idx)]
          | Operation.New =>
              [CallbackComms.ChangeType (PulseChange.SourceNew idx)]
          | Operation.Removed =>
              [CallbackComms.ChangeType (PulseChange.SourceDrop idx)]
        | Facility.Server => [CallbackComms.ChangeType PulseChange.Server]
        | _ => []

/-- `report_mute_change` (src/src/main.rs lines 548-562), returning the lines
printed to stdout instead of printing them. -/
def report_mute_change (state : ListenerState) (old_default_mute : Option Bool) :
    List String :=
  match state.default_source with
  | some new_src =>
      if some new_src.mute ≠ old_default_mute then
        [if new_src.mute then "MUTED" else "UNMUTED"]
      else []
  | none => ["No default source"]

/-- The `old_default_mute` capture at the top of each consumer-loop iteration
(src/src/main.rs lines 463-468). -/
def old_default_mute (s : ListenerState) : Option Bool :=
  match s.default_source with
  | some src => some src.mute
  | none => none

/-- The error values reachable in the pure consumer-loop core of `enum Errors`. -/
inductive Errors
  | Shutdown
  | SrcListError
deriving DecidableEq, Repr

/-- Responses of the introspection collaborator during one loop iteration:
`listSources` models `get_sources` (`none` = `Err(SrcListError)`);
`sourceByIdx` models `get_source_by_idx` (`none` = `Err(SrcListError)`,
`some none` = `Ok(None)`, the source has vanished); `defaultName` models
`find_default_source_name`. -/
structure Env where
  listSources : Option Sources
  sourceByIdx : Nat → Option (Option SourceDatum)
  defaultName : Option String

/-- Outcome of one iteration of the consumer loop of `subscribe_source_mute`:
`next s out` — the iteration ran through to `report_mute_change`, leaving state
`s` and printing `out`; `skip s` — the `continue` path (line 500), no report;
`fatal e` — a `return Err(e)`; `crash` — the `_ => panic!` arm (line 541). -/
inductive StepOutcome
  | next (s : ListenerState) (out : List String)
  | skip (s : ListenerState)
  | fatal (e : Errors)
  | crash
deriving DecidableEq, Repr

/-- One iteration of the consumer loop of `subscribe_source_mute`
(src/src/main.rs lines 459-545): capture the old default mute observation,
receive `event`, apply it, and (on the fall-through paths) report. -/
def loop_step (env : Env) (state : ListenerState) (event : CallbackComms) :
    StepOutcome :=
  let old := old_default_mute state
  match event with
  | CallbackComms.Shutdown => StepOutcome.fatal Errors.Shutdown
  | CallbackComms.CallbackDone _ => StepOutcome.crash
  | CallbackComms.ChangeType change =>
    match change with
    | PulseChange.Server =>
      match env.listSources with
      | none => StepOutcome.fatal Errors.SrcListError
      | some srcs =>
        let st : ListenerState :=
          { sources := srcs
            default_source_id :=
              get_default_source_index env.defaultName state.sources }
        StepOutcome.next st (report_mute_change st old)
    | PulseChange.SourceNew _ =>
      StepOutcome.next state (report_mute_change state old)
    | PulseChange.SourceChange idx =>
      match env.sourceByIdx idx with
      | none => StepOutcome.skip state
      | some none => StepOutcome.fatal Errors.SrcListError
      | some (some src) =>
        let sources1 := Sources.insert state.sources idx src
        let default1 :=
          if state.default_source_id = none then
            get_default_source_index env.defaultName sources1
          else state.default_source_id
        let st : ListenerState :=
          { sources := sources1, default_source_id := default1 }
        StepOutcome.next st (report_mute_change st old)
    | PulseChange.SourceDrop idx =>
      let st : ListenerState :=
        { state with sources := Sources.remove state.sources idx }
      StepOutcome.next st (report_mute_change st old)

/-! Concrete instances used by witnesses and counterexamples. -/

/-- A concrete source record. -/
def micDatum : SourceDatum := { name := "mic0", mute := false }

/-- A state whose default source resolves to `micDatum` at index 3. -/
def stateA : ListenerState := { sources := [(3, micDatum)], default_source_id := some 3 }

/-- The empty state with no resolvable default. -/
def stateEmpty : ListenerState := { sources := [], default_source_id := none }

/-- An environment in which every single-source fetch succeeds with `micDatum`. -/
def envA : Env :=
  { listSources := some []
    sourceByIdx := fun _ => some (some micDatum)
    defaultName := some "mic0" }

/-- An environment in which every single-source fetch reports the source vanished. -/
def envVanished : Env :=
  { listSources := some []
    sourceByIdx := fun _ => some none
    defaultName := some "mic0" }

/-- An environment in which every single-source fetch fails with `SrcListError`. -/
def envFetchErr : Env :=
  { listSources := some []
    sourceByIdx := fun _ => none
    defaultName := some "mic0" }

/-- An environment with no server default name, fetches yielding a record named "x". -/
def envNoDefault : Env :=
  { listSources := some []
    sourceByIdx := fun _ => some (some { name := "x", mute := false })
    defaultName := none }

/-! Helper lemmas shared between claims. -/

/-- Looking up the key just inserted returns the inserted record. -/
lemma sources_get_insert_self (l : Sources) (k : Nat) (v : SourceDatum) :
    Sources.get (Sources.insert l k v) k = some v := by
  simp [Sources.get, Sources.insert, List.find?]

/-- Dropping the entries at key `k` does not change a lookup at a key `i ≠ k`. -/
lemma find?_filter_ne (l : Sources) (i k : Nat) (h : i ≠ k) :
    List.find? (fun p => p.1 == i) (l.filter (fun p => p.1 != k)) =
      List.find? (fun p => p.1 == i) l := by
  induction l with
  | nil => rfl
  | cons q t ih =>
    by_cases hq : q.1 = k
    · rw [List.filter_cons_of_neg (by simp [hq]),
        List.find?_cons_of_neg _ (by simp [hq]; exact Ne.symm h), ih]
    · rw [List.filter_cons_of_pos (by simp [hq])]
      by_cases hqi : q.1 = i
      · rw [List.find?_cons_of_pos _ (by simp [hqi]),
          List.find?_cons_of_pos _ (by simp [hqi])]
      · rw [List.find?_cons_of_neg _ (by simp [hqi]),
          List.find?_cons_of_neg _ (by simp [hqi]), ih]

/-- Inserting at key `k` does not change a lookup at a key `i ≠ k`. -/
lemma sources_get_insert_ne (l : Sources) (k i : Nat) (v : SourceDatum)
    (h : k ≠ i) :
    Sources.get (Sources.insert l k v) i = Sources.get l i := by
  simp only [Sources.get, Sources.insert]
  rw [List.find?_cons_of_neg _ (by simp [h]), find?_filter_ne l i k (Ne.symm h)]

/-- When the default record resolves, reporting against the state's own
observation prints nothing. -/
lemma report_after_no_change (s : ListenerState) (h : s.default_source.isSome = true) :
    report_mute_change s (old_default_mute s) = [] := by
  obtain ⟨d, hd⟩ := Option.isSome_iff_exists.mp h
  simp [report_mute_change, old_default_mute, hd]

/-- With duplicate-free keys, the cache lookup at a member's key returns
that member's record. -/
lemma sources_get_of_mem_nodup (l : Sources) (p : Nat × SourceDatum)
    (hmem : p ∈ l) (hnd : (l.map Prod.fst).Nodup) :
    Sources.get l p.1 = some p.2 := by
  induction l with
  | nil => cases hmem
  | cons q t ih =>
    rcases List.mem_cons.mp hmem with h | h
    · subst h
      simp [Sources.get, List.find?]
    · rw [List.map_cons, List.nodup_cons] at hnd
      have hne : (q.1 == p.1) = false := by
        refine beq_eq_false_iff_ne.mpr ?_
        intro he
        exact hnd.1 (he ▸ List.mem_map_of_mem Prod.fst h)
      have := ih h hnd.2
      simpa [Sources.get, List.find?, hne] using this

/-- A state whose `default_source_id` is unset resolves no default record. -/
lemma default_source_of_id_none (s : ListenerState)
    (h : s.default_source_id = none) : s.default_source = none := by
  simp [ListenerState.default_source, h]

/-! Claim theorems. -/

/-- C1, counterexample: even when the effective default mute observation is
`None` both before and after the event — here a `SourceDrop 9` on the empty
state, which leaves the state unchanged — the iteration still emits the line
`No default source`, contradicting "no output line is emitted". -/
theorem C1_counterexample :
    old_default_mute stateEmpty = none ∧
    loop_step envA stateEmpty (CallbackComms.ChangeType (PulseChange.SourceDrop 9)) =
      StepOutcome.next stateEmpty ["No default source"] := by
  decide

/-- C1, amended: the Reporter prints nothing exactly when the old and new
default-mute observations are equal AND are `Some`; when the new observation
is `None` it always prints `No default source`, even when the old observation
is also `None`. -/
theorem C1_report_silent_iff (s : ListenerState) (old : Option Bool) :
    report_mute_change s old = [] ↔
      s.default_source.map SourceDatum.mute = old ∧ old ≠ none := by
  cases h : s.default_source with
  | none =>
    simp only [report_mute_change, h, Option.map_none']
    constructor
    · intro hc
      cases hc
    · rintro ⟨h1, h2⟩
      exact absurd h1.symm h2
  | some src =>
    simp only [report_mute_change, h, Option.map_some']
    by_cases hm : some src.mute = old
    · subst hm
      simp
    · simp [hm]

/-- C2, counterexample: in a state where source 3 is the resolved default and
the collaborator reports it vanished (`Ok(None)` from the single-source
fetch), `SourceChanged(3)` terminates the loop with `Err(SrcListError)`,
while `SourceRemoved(3)` on the same state continues normally — the two are
not treated identically and the error does propagate upward. -/
theorem C2_counterexample :
    loop_step envVanished stateA (CallbackComms.ChangeType (PulseChange.SourceChange 3)) =
      StepOutcome.fatal Errors.SrcListError ∧
    loop_step envVanished stateA (CallbackComms.ChangeType (PulseChange.SourceDrop 3)) =
      StepOutcome.next { sources := [], default_source_id := some 3 }
        ["No default source"] := by
  decide

/-- C2, amended: when the single-source refresh returns `None` (vanished
source), the consumer loop terminates with `Err(SrcListError)`; it is the
refresh *erroring* with `SrcListError` that is absorbed, by continuing the
loop (skipping the report) with the state unchanged. -/
theorem C2_vanished_is_fatal (env : Env) (s : ListenerState) (idx : Nat) :
    (env.sourceByIdx idx = some none →
      loop_step env s (CallbackComms.ChangeType (PulseChange.SourceChange idx)) =
        StepOutcome.fatal Errors.SrcListError) ∧
    (env.sourceByIdx idx = none →
      loop_step env s (CallbackComms.ChangeType (PulseChange.SourceChange idx)) =
        StepOutcome.skip s) := by
  constructor <;> intro h <;> simp [loop_step, h]

/-- C2, witness: the amended theorem applied at a concrete vanished fetch. -/
theorem C2_vanished_is_fatal_witness :
    loop_step envVanished stateA (CallbackComms.ChangeType (PulseChange.SourceChange 3)) =
      StepOutcome.fatal Errors.SrcListError :=
  (C2_vanished_is_fatal envVanished stateA 3).1 rfl

/-- C3, counterexample: a dequeued `SourceChanged(3)` whose single-source
fetch fails with `SrcListError` takes the `continue` path: the iteration ends
without ever invoking the Reporter, contradicting "no dequeued event's
iteration skips the report step". -/
theorem C3_counterexample :
    loop_step envFetchErr stateA (CallbackComms.ChangeType (PulseChange.SourceChange 3)) =
      StepOutcome.skip stateA := by
  decide

/-- C3, amended: for every dequeued domain event other than
`ShutdownRequested` whose handling succeeds (the single-source fetch of a
`SourceChanged` returns a record; the full reload of a `ServerChanged`
succeeds), the iteration applies the event and then invokes the Reporter
exactly once, comparing against the pre-event observation; the
`SourceChanged` fetch-error path instead skips the report, and fatal error
paths terminate the loop without reporting. -/
theorem C3_report_once_on_success (env : Env) (s : ListenerState) (c : PulseChange)
    (hchange : ∀ idx, c = PulseChange.SourceChange idx →
      ∃ r, env.sourceByIdx idx = some (some r))
    (hserver : c = PulseChange.Server → ∃ srcs, env.listSources = some srcs) :
    ∃ s1, loop_step env s (CallbackComms.ChangeType c) =
      StepOutcome.next s1 (report_mute_change s1 (old_default_mute s)) := by
  cases c with
  | SourceChange idx =>
    obtain ⟨r, hr⟩ := hchange idx rfl
    refine ⟨{ sources := Sources.insert s.sources idx r
              default_source_id :=
                if s.default_source_id = none then
                  get_default_source_index env.defaultName
                    (Sources.insert s.sources idx r)
                else s.default_source_id }, ?_⟩
    simp [loop_step, hr]
  | SourceNew idx => exact ⟨s, by simp [loop_step]⟩
  | SourceDrop idx =>
    exact ⟨{ s with sources := Sources.remove s.sources idx }, by simp [loop_step]⟩
  | Server =>
    obtain ⟨srcs, hs⟩ := hserver rfl
    exact ⟨{ sources := srcs
             default_source_id := get_default_source_index env.defaultName s.sources },
      by simp [loop_step, hs]⟩

/-- C3, witness: the amended theorem applied at a concrete successful fetch. -/
theorem C3_report_once_witness :
    ∃ s1, loop_step envA stateEmpty
        (CallbackComms.ChangeType (PulseChange.SourceChange 3)) =
      StepOutcome.next s1 (report_mute_change s1 (old_default_mute stateEmpty)) :=
  C3_report_once_on_success envA stateEmpty (PulseChange.SourceChange 3)
    (fun _ _ => ⟨micDatum, rfl⟩) (fun h => nomatch h)

/-- C4, counterexample: `SourceAdded(9)` on the empty state (no resolvable
default) leaves the state unchanged but the iteration prints
`No default source`, contradicting "produces no output line". -/
theorem C4_counterexample :
    loop_step envA stateEmpty (CallbackComms.ChangeType (PulseChange.SourceNew 9)) =
      StepOutcome.next stateEmpty ["No default source"] := by
  decide

/-- C4, amended: handling `SourceAdded(id)` leaves the whole state (cache and
default id) unchanged, and — provided the state has a resolvable default
record — produces no output line; when no default resolves, the report step
still prints `No default source`. -/
theorem C4_added_frame_no_output (env : Env) (s : ListenerState) (idx : Nat)
    (h : s.default_source.isSome = true) :
    loop_step env s (CallbackComms.ChangeType (PulseChange.SourceNew idx)) =
      StepOutcome.next s [] := by
  have hr := report_after_no_change s h
  simp [loop_step, hr]

/-- C4, witness: the amended theorem at a state with a resolved default. -/
theorem C4_added_frame_witness :
    loop_step envA stateA (CallbackComms.ChangeType (PulseChange.SourceNew 9)) =
      StepOutcome.next stateA [] :=
  C4_added_frame_no_output envA stateA 9 (by decide)

/-- C5, counterexample: with no resolvable default, applying
`SourceChanged(5)` twice with the identical fetched record prints
`No default source` on both iterations — the second identical application
does emit output, contradicting the claim. -/
theorem C5_counterexample :
    loop_step envNoDefault stateEmpty
        (CallbackComms.ChangeType (PulseChange.SourceChange 5)) =
      StepOutcome.next
        { sources := [(5, { name := "x", mute := false })], default_source_id := none }
        ["No default source"] ∧
    loop_step envNoDefault
        { sources := [(5, { name := "x", mute := false })], default_source_id := none }
        (CallbackComms.ChangeType (PulseChange.SourceChange 5)) =
      StepOutcome.next
        { sources := [(5, { name := "x", mute := false })], default_source_id := none }
        ["No default source"] := by
  decide

/-- C5, amended: provided the state reached by the first application has a
resolvable default record, any subsequent `SourceChanged(id)` whose fetched
record carries the same mute flag (the record's name may differ, and it may
come from a later collaborator response) emits no output; only the cache
entry at `id` is replaced. -/
theorem C5_idempotent_when_default_resolves (env1 env2 : Env) (s s1 : ListenerState)
    (idx : Nat) (r1 r2 : SourceDatum) (out : List String)
    (hfetch1 : env1.sourceByIdx idx = some (some r1))
    (hstep : loop_step env1 s (CallbackComms.ChangeType (PulseChange.SourceChange idx)) =
      StepOutcome.next s1 out)
    (hfetch2 : env2.sourceByIdx idx = some (some r2))
    (hmute : r2.mute = r1.mute)
    (hres : s1.default_source.isSome = true) :
    loop_step env2 s1 (CallbackComms.ChangeType (PulseChange.SourceChange idx)) =
      StepOutcome.next
        { sources := Sources.insert s1.sources idx r2
          default_source_id := s1.default_source_id } [] := by
  obtain ⟨ss1, sd1⟩ := s1
  simp only [loop_step, hfetch1, StepOutcome.next.injEq, ListenerState.mk.injEq] at hstep
  obtain ⟨⟨h1, h2⟩, -⟩ := hstep
  obtain ⟨dsrc, hdsrc⟩ := Option.isSome_iff_exists.mp hres
  cases sd1 with
  | none =>
    rw [default_source_of_id_none ⟨ss1, none⟩ rfl] at hdsrc
    cases hdsrc
  | some i =>
    have hget : Sources.get ss1 i = some dsrc := by
      simpa [ListenerState.default_source] using hdsrc
    have hold : old_default_mute ⟨ss1, some i⟩ = some dsrc.mute := by
      simp [old_default_mute, ListenerState.default_source, hget]
    have hnewmute :
        (Sources.get (Sources.insert ss1 idx r2) i).map SourceDatum.mute =
          some dsrc.mute := by
      by_cases hik : idx = i
      · subst hik
        have hr1 : Sources.get ss1 idx = some r1 := by
          rw [← h1]
          exact sources_get_insert_self s.sources idx r1
        have hdr : dsrc = r1 := Option.some.inj (hget.symm.trans hr1)
        rw [sources_get_insert_self]
        simp [hmute, hdr]
      · rw [sources_get_insert_ne ss1 idx i r2 hik, hget]
        rfl
    have hrep : report_mute_change
        ⟨Sources.insert ss1 idx r2, some i⟩ (old_default_mute ⟨ss1, some i⟩) = [] := by
      rcases hg : Sources.get (Sources.insert ss1 idx r2) i with _ | nd
      · rw [hg] at hnewmute
        cases hnewmute
      · rw [hg] at hnewmute
        have hnd : nd.mute = dsrc.mute := by simpa using hnewmute
        simp [report_mute_change, ListenerState.default_source, hg, hold, hnd]
    simp [loop_step, hfetch2, hrep]

/-- C5, witness: the amended theorem applied to the concrete first transition
from the empty state, which resolves the default to index 3, re-fetching the
same record. -/
theorem C5_idempotent_witness :
    loop_step envA stateA (CallbackComms.ChangeType (PulseChange.SourceChange 3)) =
      StepOutcome.next
        { sources := Sources.insert stateA.sources 3 micDatum
          default_source_id := stateA.default_source_id } [] :=
  C5_idempotent_when_default_resolves envA envA stateEmpty stateA 3 micDatum micDatum
    ["UNMUTED"] rfl (by decide) rfl rfl (by decide)

/-- C6: the translator maps each delivered (facility, operation, id) triple
per the fixed table — (Source, Changed) ↦ SourceChanged, (Source, New) ↦
SourceAdded, (Source, Removed) ↦ SourceRemoved, (Server, any) ↦
ServerChanged — and any other facility enqueues nothing; its entire effect is
the returned list of enqueued messages (it takes no state and performs no
collaborator request). -/
theorem C6_translator_table (idx : Nat) :
    subscribe_cb (some Facility.Source) (some Operation.Changed) idx =
      some [CallbackComms.ChangeType (PulseChange.SourceChange idx)] ∧
    subscribe_cb (some Facility.Source) (some Operation.New) idx =
      some [CallbackComms.ChangeType (PulseChange.SourceNew idx)] ∧
    subscribe_cb (some Facility.Source) (some Operation.Removed) idx =
      some [CallbackComms.ChangeType (PulseChange.SourceDrop idx)] ∧
    (∀ op, subscribe_cb (some Facility.Server) (some op) idx =
      some [CallbackComms.ChangeType PulseChange.Server]) ∧
    (∀ f op, f ≠ Facility.Source → f ≠ Facility.Server →
      subscribe_cb (some f) (some op) idx = some []) := by
  refine ⟨rfl, rfl, rfl, fun op => rfl, fun f op h1 h2 => ?_⟩
  cases f <;> first | rfl | exact absurd rfl h1 | exact absurd rfl h2

/-- C6, witness: the table applied at an unrelated facility. -/
theorem C6_translator_witness :
    subscribe_cb (some Facility.Sink) (some Operation.New) 7 = some [] :=
  (C6_translator_table 7).2.2.2.2 Facility.Sink Operation.New
    (by decide) (by decide)

/-- C7: the Default Source Resolver returns `None` both when the server
reports no default name and when the reported name matches no cached entry
(same result, no error value in its type); and whenever it returns
`Some(id)`, the cached record at `id` has a name exactly string-equal to the
server-reported name (assuming the cache's keys are duplicate-free, the
`HashMap` invariant). -/
theorem C7_resolver_spec (name : String) (sources : Sources)
    (hnd : (sources.map Prod.fst).Nodup) :
    get_default_source_index none sources = none ∧
    ((∀ p ∈ sources, p.2.name ≠ name) →
      get_default_source_index (some name) sources = none) ∧
    (∀ i, get_default_source_index (some name) sources = some i →
      ∃ r, Sources.get sources i = some r ∧ r.name = name) := by
  refine ⟨rfl, ?_, ?_⟩
  · intro hall
    simp only [get_default_source_index, Option.map_eq_none']
    rw [List.find?_eq_none]
    intro p hp
    simp [hall p hp]
  · intro i hi
    simp only [get_default_source_index] at hi
    rcases hmap : sources.find? (fun p => p.2.name == name) with _ | p
    · rw [hmap] at hi
      cases hi
    · rw [hmap] at hi
      have hpi : p.1 = i := by simpa using hi
      have hmem := List.mem_of_find?_eq_some hmap
      have hname : p.2.name = name := by simpa using List.find?_some hmap
      refine ⟨p.2, ?_, hname⟩
      rw [← hpi]
      exact sources_get_of_mem_nodup sources p hmem hnd

/-- C7, witness: the resolver's `Some` case at a concrete one-entry cache. -/
theorem C7_resolver_witness :
    ∃ r, Sources.get [(3, micDatum)] 3 = some r ∧ r.name = "mic0" :=
  (C7_resolver_spec "mic0" [(3, micDatum)] (by decide)).2.2 3 (by decide)

/-- C8: handling `ServerChanged` re-resolves `default_source_id` against the
cache as it stood before the event (`s.sources`), and unconditionally
replaces the whole cache with the freshly reloaded list, on every
`ServerChanged`, whether or not the resolved default changed. -/
theorem C8_server_changed (env : Env) (s : ListenerState) (srcs : Sources)
    (h : env.listSources = some srcs) :
    loop_step env s (CallbackComms.ChangeType PulseChange.Server) =
      StepOutcome.next
        { sources := srcs
          default_source_id := get_default_source_index env.defaultName s.sources }
        (report_mute_change
          { sources := srcs
            default_source_id := get_default_source_index env.defaultName s.sources }
          (old_default_mute s)) := by
  simp [loop_step, h]

/-- C8, witness: the theorem at a concrete environment and state. -/
theorem C8_server_changed_witness :
    loop_step envA stateA (CallbackComms.ChangeType PulseChange.Server) =
      StepOutcome.next
        { sources := []
          default_source_id := get_default_source_index envA.defaultName stateA.sources }
        (report_mute_change
          { sources := []
            default_source_id := get_default_source_index envA.defaultName stateA.sources }
          (old_default_mute stateA)) :=
  C8_server_changed envA stateA [] rfl

/-- C9, counterexample: a notification satisfying the claim's precondition —
facility present (`Server`) with operation `None`, which is not on the Source
path — still panics: the callback unwraps the operation unconditionally,
before inspecting the facility. -/
theorem C9_counterexample :
    subscribe_cb (some Facility.Server) none 0 = none := rfl

/-- C9, amended: the callback is total only when the library delivers both a
facility and an operation: it panics exactly when facility is `None` or
operation is `None`, on every facility path, never dropping such an event. -/
theorem C9_unwrap_crash_iff (facility : Option Facility)
    (operation : Option Operation) (idx : Nat) :
    subscribe_cb facility operation idx = none ↔
      facility = none ∨ operation = none := by
  cases facility with
  | none => simp [subscribe_cb]
  | some f =>
    cases operation with
    | none => simp [subscribe_cb]
    | some op => simp [subscribe_cb]

/-- C10: invoked with `old_muted = None` — exactly what `main` does right
after constructing the initial state (src/src/main.rs line 177) — the
Reporter prints exactly one line: `MUTED`/`UNMUTED` reflecting the initial
default source's mute flag when a default resolves, `No default source`
otherwise. -/
theorem C10_startup_report (s : ListenerState) :
    (report_mute_change s none).length = 1 ∧
    (∀ r, s.default_source = some r →
      report_mute_change s none = [if r.mute then "MUTED" else "UNMUTED"]) ∧
    (s.default_source = none →
      report_mute_change s none = ["No default source"]) := by
  cases h : s.default_source with
  | none => simp [report_mute_change, h]
  | some r => simp [report_mute_change, h]

/-- C10, witness: the startup report at a concrete state with an unmuted
default source. -/
theorem C10_startup_witness :
    report_mute_change stateA none = [if micDatum.mute then "MUTED" else "UNMUTED"] :=
  (C10_startup_report stateA).2.1 micDatum rfl

end PulseSourceListener
